import Mathlib

/-!
Verification of the `rail_score` deprecation shim (`src/rail_score/__init__.py`).

The module body is embedded as a small statement language executed over an
explicit namespace state.  Python objects are modelled by numeric identities
(`PyObj`): two names are bound to the identical object exactly when their
identities are equal, which is Python's `is`.  The successor package
`rail_score_sdk` is an opaque collaborator: an optional attribute table plus
an optional `__all__` list (absent table = package not installed or failed to
load).  Python's module-cache (`sys.modules`) import semantics is modelled by
`importShim`: a cached module is returned without re-executing the body; a
body that raises leaves no cache entry behind.
-/

namespace RailScoreShim

/-- Identity of a Python object; alias identity (`a is b`) is equality. -/
abbrev PyObj := Nat

/-- The successor module `rail_score_sdk` as the shim observes it: a finite
attribute table (name to object identity) and an optional `__all__` list
controlling the wildcard export. -/
structure SdkModule where
  attrs : List (String × PyObj)
  allNames : Option (List String)
  deriving Repr, DecidableEq

/-- Attribute lookup on the successor module. -/
def getAttr (m : SdkModule) (n : String) : Option PyObj :=
  m.attrs.lookup n

/-- Whether a name does not start with an underscore (Python's criterion for
inclusion in a wildcard import when the module defines no `__all__`). -/
def isPublicName (n : String) : Bool :=
  match n.toList with
  | [] => true
  | c :: _ => c != '_'

/-- The names bound by `from rail_score_sdk import *`: the module's
`__all__` if it defines one, otherwise every attribute not starting with an
underscore. -/
def starNames (m : SdkModule) : List String :=
  match m.allNames with
  | some ns => ns
  | none => (m.attrs.map Prod.fst).filter isPublicName

/-- The import environment: the successor module, or `none` when
`rail_score_sdk` is not installed or fails to load. -/
structure Env where
  sdk : Option SdkModule
  deriving Repr, DecidableEq

/-- The shim module's namespace: its name bindings (later bindings shadow
earlier ones) and its `__all__` export list, when set. -/
structure ShimNS where
  bindings : List (String × PyObj)
  exports : Option (List String)
  deriving Repr, DecidableEq

/-- Bind a name in the shim namespace (assignment; shadows any earlier
binding of the same name). -/
def ShimNS.bind (ns : ShimNS) (n : String) (v : PyObj) : ShimNS :=
  { ns with bindings := (n, v) :: ns.bindings }

/-- A warning emitted through `warnings.warn`: its message text and its
category. -/
structure Warning where
  message : String
  category : String
  deriving Repr, DecidableEq

/-- State during execution of the module body: the namespace under
construction and the warnings emitted so far. -/
structure ExecState where
  ns : ShimNS
  warnings : List Warning
  deriving Repr, DecidableEq

/-- The ways executing the module body can raise. -/
inductive LoadError where
  | moduleNotFound
  | importFrom (n : String)
  | starAttr (n : String)
  | nameError (n : String)
  deriving Repr, DecidableEq

/-- The statements of the shim's module body. -/
inductive Stmt where
  | warn
  | importStar
  | importNames (names : List String)
  | assign (target : String) (src : String)
  | setAll (names : List String)
  deriving Repr, DecidableEq

/-- The literal message passed to `warnings.warn` in the module body
(the adjacent Python string literals, concatenated). -/
def deprecationMessage : String :=
  "\n\n" ++
  "  ⚠️  The 'rail-score' package is DEPRECATED and will not receive updates.\n" ++
  "  ➡️  Please switch to 'rail-score-sdk':\n\n" ++
  "      pip uninstall rail-score\n" ++
  "      pip install rail-score-sdk\n\n" ++
  "  Then update your imports:\n" ++
  "      from rail_score_sdk import RailScoreClient\n\n" ++
  "  Docs: https://pypi.org/project/rail-score-sdk/\n"

/-- The one warning the body emits: the message above, with category
`DeprecationWarning`. -/
def depWarning : Warning :=
  { message := deprecationMessage, category := "DeprecationWarning" }

/-- Bind each listed name to the successor's attribute of that name, in
order, failing at the first name the successor lacks (as Python's
`from m import a, b` and its wildcard form do). -/
def bindFrom (m : SdkModule) (mkErr : String → LoadError) :
    List String → ExecState → Except LoadError ExecState
  | [], s => .ok s
  | n :: rest, s =>
    match getAttr m n with
    | some v => bindFrom m mkErr rest { s with ns := s.ns.bind n v }
    | none => .error (mkErr n)

/-- One step of the module body. `warn` appends a `DeprecationWarning` and
cannot fail; the two import forms fail when the successor is absent or lacks
a required attribute; `assign` reads the source name from the namespace
(`NameError` if unbound); `setAll` publishes the export list. -/
def execStmt (env : Env) (s : ExecState) : Stmt → Except LoadError ExecState
  | .warn => .ok { s with warnings := s.warnings ++ [depWarning] }
  | .importStar =>
    match env.sdk with
    | none => .error .moduleNotFound
    | some m => bindFrom m LoadError.starAttr (starNames m) s
  | .importNames names =>
    match env.sdk with
    | none => .error .moduleNotFound
    | some m => bindFrom m LoadError.importFrom names s
  | .assign t src =>
    match s.ns.bindings.lookup src with
    | some v => .ok { s with ns := s.ns.bind t v }
    | none => .error (.nameError src)
  | .setAll names => .ok { s with ns := { s.ns with exports := some names } }

/-- Run a list of statements; on failure, return the state reached so far
together with the error. -/
def runStmts (env : Env) : List Stmt → ExecState → ExecState × Except LoadError Unit
  | [], s => (s, .ok ())
  | stmt :: rest, s =>
    match execStmt env s stmt with
    | .ok s2 => runStmts env rest s2
    | .error e => (s, .error e)

/-- The state before the module body runs: empty namespace, no exports, no
warnings. -/
def initState : ExecState :=
  { ns := { bindings := [], exports := none }, warnings := [] }

/-- The shim's module body, statement by statement, in source order:
`warnings.warn(...)`; `from rail_score_sdk import *`;
`from rail_score_sdk import RailScoreClient, __version__`;
`RailScore = RailScoreClient`; `__all__ = ["RailScore", "RailScoreClient"]`. -/
def shimBody : List Stmt :=
  [Stmt.warn,
   Stmt.importStar,
   Stmt.importNames ["RailScoreClient", "__version__"],
   Stmt.assign "RailScore" "RailScoreClient",
   Stmt.setAll ["RailScore", "RailScoreClient"]]

/-- Execute the whole module body from the initial state. -/
def runBody (env : Env) : ExecState × Except LoadError Unit :=
  runStmts env shimBody initState

/-- The state after the first `k` statements of the body (the state reached
so far, whether or not those statements succeeded). -/
def stateAfter (env : Env) (k : Nat) : ExecState :=
  (runStmts env (shimBody.take k) initState).1

/-- Outcome of one `import rail_score` attempt: the module cache entry after
the attempt, the result surfaced to the caller, and the warnings emitted
during this attempt. -/
structure ImportOutcome where
  cache : Option ShimNS
  result : Except LoadError ShimNS
  emitted : List Warning
  deriving Repr

/-- Python import semantics for the shim: a cached module is returned as is,
with no re-execution and no new warnings; otherwise the body runs, and on
failure the module is removed from the cache (a failed load leaves the
module absent) while the error propagates to the importer. -/
def importShim (env : Env) (cache : Option ShimNS) : ImportOutcome :=
  match cache with
  | some ns => { cache := some ns, result := .ok ns, emitted := [] }
  | none =>
    match runBody env with
    | (st, .ok ()) => { cache := some st.ns, result := .ok st.ns, emitted := st.warnings }
    | (st, .error e) => { cache := none, result := .error e, emitted := st.warnings }

/-- The execution state right after the `warnings.warn` statement: still an
empty namespace, no exports, and the one deprecation warning emitted. -/
def warnedState : ExecState :=
  { ns := { bindings := [], exports := none }, warnings := [depWarning] }

/-- Whether `needle` is a prefix of `hay` (character lists). -/
def prefixMatches : List Char → List Char → Bool
  | [], _ => true
  | _ :: _, [] => false
  | a :: as, b :: bs => a == b && prefixMatches as bs

/-- Whether `needle` occurs somewhere inside the character list. -/
def occursIn (needle : List Char) : List Char → Bool
  | [] => prefixMatches needle []
  | b :: bs => prefixMatches needle (b :: bs) || occursIn needle bs

/-- Whether `needle` occurs verbatim inside `haystack`. -/
def strContains (haystack needle : String) : Bool :=
  occursIn needle.toList haystack.toList

/-- A sample successor module: it exposes the client type (object identity 7)
and a version string (object identity 3). -/
def sdkSample : SdkModule :=
  { attrs := [("RailScoreClient", 7), ("__version__", 3)], allNames := none }

/-- An environment in which the sample successor is installed. -/
def envSample : Env :=
  { sdk := some sdkSample }

/-- The shim namespace produced by loading the shim under `envSample`. -/
def nsSample : ShimNS :=
  { bindings := [("RailScore", 7), ("__version__", 3),
                 ("RailScoreClient", 7), ("RailScoreClient", 7)],
    exports := some ["RailScore", "RailScoreClient"] }

/-- The full execution state produced by running the body under `envSample`. -/
def stSample : ExecState :=
  { ns := nsSample, warnings := [depWarning] }

/-- A defective successor module: it exposes the client type but no
`__version__` attribute. -/
def sdkNoVersion : SdkModule :=
  { attrs := [("RailScoreClient", 7)], allNames := none }

/-- An environment in which the defective successor is installed. -/
def envNoVersion : Env :=
  { sdk := some sdkNoVersion }

/-- Looking a key up in an association list headed by that key yields the
value just bound. -/
theorem lookup_cons_self {v : PyObj} {l : List (String × PyObj)} (n : String) :
    List.lookup n ((n, v) :: l) = some v := by
  simp [List.lookup]

/-- Looking up a different key skips the head binding. -/
theorem lookup_cons_ne {v : PyObj} {l : List (String × PyObj)} {t n : String}
    (h : (t == n) = false) :
    List.lookup t ((n, v) :: l) = List.lookup t l := by
  simp [List.lookup, h]

/-- A successful `bindFrom` changes neither the warnings nor the export
list: the import statements only touch name bindings. -/
theorem bindFrom_ok_inv {m : SdkModule} {mkErr : String → LoadError} :
    ∀ {names : List String} {s s' : ExecState},
      bindFrom m mkErr names s = Except.ok s' →
      s'.warnings = s.warnings ∧ s'.ns.exports = s.ns.exports := by
  intro names
  induction names with
  | nil =>
    intro s s' h
    simp only [bindFrom, Except.ok.injEq] at h
    subst h
    exact ⟨rfl, rfl⟩
  | cons n rest ih =>
    intro s s' h
    rw [bindFrom] at h
    cases hg : getAttr m n with
    | none => simp [hg] at h
    | some v =>
      simp only [hg] at h
      have h2 := ih h
      exact h2

/-- A name not in the imported list keeps whatever binding it had before a
successful `bindFrom`. -/
theorem bindFrom_lookup_of_not_mem {m : SdkModule} {mkErr : String → LoadError} :
    ∀ {names : List String} {s s' : ExecState},
      bindFrom m mkErr names s = Except.ok s' →
      ∀ t, t ∉ names → s'.ns.bindings.lookup t = s.ns.bindings.lookup t := by
  intro names
  induction names with
  | nil =>
    intro s s' h t _
    simp only [bindFrom, Except.ok.injEq] at h
    subst h
    rfl
  | cons n rest ih =>
    intro s s' h t ht
    rw [bindFrom] at h
    cases hg : getAttr m n with
    | none => simp [hg] at h
    | some v =>
      simp only [hg] at h
      have htn : t ≠ n := fun he => ht (he ▸ List.mem_cons_self n rest)
      have htr : t ∉ rest := fun he => ht (List.mem_cons_of_mem n he)
      have := ih h t htr
      rw [this]
      simp [ShimNS.bind, List.lookup, beq_eq_false_iff_ne.mpr htn]

/-- After a successful `bindFrom`, every imported name is bound to the
successor's attribute of that name. -/
theorem bindFrom_lookup_of_mem {m : SdkModule} {mkErr : String → LoadError} :
    ∀ {names : List String} {s s' : ExecState},
      bindFrom m mkErr names s = Except.ok s' →
      ∀ t, t ∈ names → s'.ns.bindings.lookup t = getAttr m t := by
  intro names
  induction names with
  | nil =>
    intro s s' _ t ht
    cases ht
  | cons n rest ih =>
    intro s s' h t ht
    rw [bindFrom] at h
    cases hg : getAttr m n with
    | none => simp [hg] at h
    | some v =>
      simp only [hg] at h
      by_cases htr : t ∈ rest
      · exact ih h t htr
      · have htn : t = n := (List.mem_cons.mp ht).resolve_right htr
        subst htn
        have := bindFrom_lookup_of_not_mem h t htr
        rw [this]
        simp [ShimNS.bind, List.lookup, hg]

/-- A successful `bindFrom` can only have found every listed attribute on
the successor. -/
theorem bindFrom_ok_isSome {m : SdkModule} {mkErr : String → LoadError} :
    ∀ {names : List String} {s s' : ExecState},
      bindFrom m mkErr names s = Except.ok s' →
      ∀ t, t ∈ names → (getAttr m t).isSome := by
  intro names
  induction names with
  | nil =>
    intro s s' _ t ht
    cases ht
  | cons n rest ih =>
    intro s s' h t ht
    rw [bindFrom] at h
    cases hg : getAttr m n with
    | none => simp [hg] at h
    | some v =>
      simp only [hg] at h
      rcases List.mem_cons.mp ht with he | htr
      · rw [he, hg]; rfl
      · exact ih h t htr

/-- Running the body under an installed successor reduces to the two
`bindFrom` phases followed by the alias assignment and the export list. -/
theorem runBody_eq {env : Env} {m : SdkModule} (hsdk : env.sdk = some m) :
    runBody env =
      (match bindFrom m LoadError.starAttr (starNames m) warnedState with
       | .error e => (warnedState, Except.error e)
       | .ok s2 =>
         match bindFrom m LoadError.importFrom ["RailScoreClient", "__version__"] s2 with
         | .error e => (s2, Except.error e)
         | .ok s3 =>
           match s3.ns.bindings.lookup "RailScoreClient" with
           | none => (s3, Except.error (LoadError.nameError "RailScoreClient"))
           | some v =>
             ({ ns := { bindings := ("RailScore", v) :: s3.ns.bindings,
                        exports := some ["RailScore", "RailScoreClient"] },
                warnings := s3.warnings }, Except.ok ())) := by
  unfold runBody shimBody
  simp only [runStmts, execStmt, hsdk]
  rw [show ({ ns := initState.ns, warnings := initState.warnings ++ [depWarning] } : ExecState)
      = warnedState from rfl]
  cases bindFrom m LoadError.starAttr (starNames m) warnedState with
  | error e => rfl
  | ok s2 =>
    simp only []
    cases bindFrom m LoadError.importFrom ["RailScoreClient", "__version__"] s2 with
    | error e => rfl
    | ok s3 =>
      simp only []
      cases s3.ns.bindings.lookup "RailScoreClient" with
      | none => rfl
      | some v => rfl

/-- Decomposition of a successful load: the successor was resolvable, both
phases of importing succeeded, `RailScoreClient` was bound, and the final state is
the third-phase state with the alias prepended and the export list set. -/
theorem load_decomp {env : Env} {st : ExecState}
    (h : runBody env = (st, Except.ok ())) :
    ∃ m s2 s3 v,
      env.sdk = some m ∧
      bindFrom m LoadError.starAttr (starNames m) warnedState = Except.ok s2 ∧
      bindFrom m LoadError.importFrom ["RailScoreClient", "__version__"] s2 = Except.ok s3 ∧
      s3.ns.bindings.lookup "RailScoreClient" = some v ∧
      st = { ns := { bindings := ("RailScore", v) :: s3.ns.bindings,
                     exports := some ["RailScore", "RailScoreClient"] },
             warnings := s3.warnings } := by
  cases hsdk : env.sdk with
  | none =>
    exfalso
    have hbad : runBody env = (warnedState, Except.error LoadError.moduleNotFound) := by
      unfold runBody shimBody
      simp only [runStmts, execStmt, hsdk]
      rfl
    rw [hbad] at h
    simp at h
  | some m =>
    rw [runBody_eq hsdk] at h
    cases hstar : bindFrom m LoadError.starAttr (starNames m) warnedState with
    | error e => simp [hstar] at h
    | ok s2 =>
      simp only [hstar] at h
      cases hnames : bindFrom m LoadError.importFrom ["RailScoreClient", "__version__"] s2 with
      | error e => simp [hnames] at h
      | ok s3 =>
        simp only [hnames] at h
        cases hlk : s3.ns.bindings.lookup "RailScoreClient" with
        | none => simp [hlk] at h
        | some v =>
          simp only [hlk, Prod.mk.injEq] at h
          exact ⟨m, s2, s3, v, rfl, hstar, hnames, hlk, h.1.symm⟩

/-- Characterization of a successful load: the successor was installed, the
one deprecation warning was emitted, the export list is exactly the two
names, the legacy and new names are bound to the identical object (the
successor's client type), and `__version__` is bound to the successor's
version attribute. -/
theorem load_char {env : Env} {st : ExecState}
    (h : runBody env = (st, Except.ok ())) :
    ∃ m, env.sdk = some m ∧
      st.warnings = [depWarning] ∧
      st.ns.exports = some ["RailScore", "RailScoreClient"] ∧
      ∃ v, getAttr m "RailScoreClient" = some v ∧
        st.ns.bindings.lookup "RailScore" = some v ∧
        st.ns.bindings.lookup "RailScoreClient" = some v ∧
        st.ns.bindings.lookup "__version__" = getAttr m "__version__" ∧
        (getAttr m "__version__").isSome := by
  obtain ⟨m, s2, s3, v, hsdk, hstar, hnames, hlk, hst⟩ := load_decomp h
  have hinv2 := bindFrom_ok_inv hstar
  have hinv3 := bindFrom_ok_inv hnames
  have hC := bindFrom_lookup_of_mem hnames "RailScoreClient" (by simp)
  have hV := bindFrom_lookup_of_mem hnames "__version__" (by simp)
  have hCattr : getAttr m "RailScoreClient" = some v := by rw [← hC, hlk]
  have hVsome := bindFrom_ok_isSome hnames "__version__" (by simp)
  subst hst
  refine ⟨m, hsdk, ?_, rfl, v, hCattr, ?_, ?_, ?_, hVsome⟩
  · show s3.warnings = [depWarning]
    rw [hinv3.1, hinv2.1]
    rfl
  · show List.lookup "RailScore" (("RailScore", v) :: s3.ns.bindings) = some v
    exact lookup_cons_self "RailScore"
  · show List.lookup "RailScoreClient" (("RailScore", v) :: s3.ns.bindings) = some v
    rw [lookup_cons_ne (by decide), hlk]
  · show List.lookup "__version__" (("RailScore", v) :: s3.ns.bindings) = getAttr m "__version__"
    rw [lookup_cons_ne (by decide), hV]

/-- A successful import (with an empty cache) comes from a successful body
run, caches that run's namespace, and reports that run's warnings. -/
theorem importShim_none_ok {env : Env} {ns : ShimNS}
    (h : (importShim env none).result = Except.ok ns) :
    ∃ st, runBody env = (st, Except.ok ()) ∧ ns = st.ns ∧
      importShim env none =
        { cache := some st.ns, result := Except.ok st.ns, emitted := st.warnings } := by
  cases hrb : runBody env with
  | mk st r =>
    cases r with
    | ok u =>
      cases u
      have he : importShim env none =
          { cache := some st.ns, result := Except.ok st.ns, emitted := st.warnings } := by
        unfold importShim
        rw [hrb]
      rw [he] at h
      simp only [Except.ok.injEq] at h
      exact ⟨st, rfl, h.symm, he⟩
    | error e =>
      have he : importShim env none =
          { cache := none, result := Except.error e, emitted := st.warnings } := by
        unfold importShim
        rw [hrb]
      rw [he] at h
      simp at h

/-- A failed import (with an empty cache) leaves no cache entry. -/
theorem importShim_none_error {env : Env} {e : LoadError}
    (h : (importShim env none).result = Except.error e) :
    (importShim env none).cache = none := by
  cases hrb : runBody env with
  | mk st r =>
    cases r with
    | ok u =>
      cases u
      have he : importShim env none =
          { cache := some st.ns, result := Except.ok st.ns, emitted := st.warnings } := by
        unfold importShim
        rw [hrb]
      rw [he] at h
      simp at h
    | error e2 =>
      have he : importShim env none =
          { cache := none, result := Except.error e2, emitted := st.warnings } := by
        unfold importShim
        rw [hrb]
      rw [he]

/-- After the first statement of the body, the warning has been emitted and
nothing else has happened, in every environment. -/
theorem runStmts_take1 (env : Env) :
    runStmts env (shimBody.take 1) initState = (warnedState, Except.ok ()) := rfl

/-- After the first two statements: the wildcard import has run on top of
the warned state. -/
theorem runStmts_take2 {env : Env} {m : SdkModule} {s2 : ExecState}
    (hsdk : env.sdk = some m)
    (hstar : bindFrom m LoadError.starAttr (starNames m) warnedState = Except.ok s2) :
    runStmts env (shimBody.take 2) initState = (s2, Except.ok ()) := by
  have h0 : runStmts env (shimBody.take 2) initState =
      (match bindFrom m LoadError.starAttr (starNames m) warnedState with
       | .error e => (warnedState, Except.error e)
       | .ok s => (s, Except.ok ())) := by
    show runStmts env [Stmt.warn, Stmt.importStar] initState = _
    simp only [runStmts, execStmt, hsdk]
    rw [show ({ ns := initState.ns, warnings := initState.warnings ++ [depWarning] } : ExecState)
        = warnedState from rfl]
    cases bindFrom m LoadError.starAttr (starNames m) warnedState with
    | error e => rfl
    | ok s => rfl
  rw [h0, hstar]

/-- After the first three statements: both import statements have run. -/
theorem runStmts_take3 {env : Env} {m : SdkModule} {s2 s3 : ExecState}
    (hsdk : env.sdk = some m)
    (hstar : bindFrom m LoadError.starAttr (starNames m) warnedState = Except.ok s2)
    (hnames : bindFrom m LoadError.importFrom ["RailScoreClient", "__version__"] s2
      = Except.ok s3) :
    runStmts env (shimBody.take 3) initState = (s3, Except.ok ()) := by
  have h0 : runStmts env (shimBody.take 3) initState =
      (match bindFrom m LoadError.starAttr (starNames m) warnedState with
       | .error e => (warnedState, Except.error e)
       | .ok s =>
         match bindFrom m LoadError.importFrom ["RailScoreClient", "__version__"] s with
         | .error e => (s, Except.error e)
         | .ok s' => (s', Except.ok ())) := by
    show runStmts env
      [Stmt.warn, Stmt.importStar, Stmt.importNames ["RailScoreClient", "__version__"]]
      initState = _
    simp only [runStmts, execStmt, hsdk]
    rw [show ({ ns := initState.ns, warnings := initState.warnings ++ [depWarning] } : ExecState)
        = warnedState from rfl]
    cases bindFrom m LoadError.starAttr (starNames m) warnedState with
    | error e => rfl
    | ok s =>
      simp only []
      cases bindFrom m LoadError.importFrom ["RailScoreClient", "__version__"] s with
      | error e => rfl
      | ok s' => rfl
  rw [h0]
  simp only [hstar]
  rw [hnames]

/-- After the first four statements: the alias assignment has also run. -/
theorem runStmts_take4 {env : Env} {m : SdkModule} {s2 s3 : ExecState} {v : PyObj}
    (hsdk : env.sdk = some m)
    (hstar : bindFrom m LoadError.starAttr (starNames m) warnedState = Except.ok s2)
    (hnames : bindFrom m LoadError.importFrom ["RailScoreClient", "__version__"] s2
      = Except.ok s3)
    (hlk : s3.ns.bindings.lookup "RailScoreClient" = some v) :
    runStmts env (shimBody.take 4) initState =
      ({ s3 with ns := s3.ns.bind "RailScore" v }, Except.ok ()) := by
  have h0 : runStmts env (shimBody.take 4) initState =
      (match bindFrom m LoadError.starAttr (starNames m) warnedState with
       | .error e => (warnedState, Except.error e)
       | .ok s =>
         match bindFrom m LoadError.importFrom ["RailScoreClient", "__version__"] s with
         | .error e => (s, Except.error e)
         | .ok s' =>
           match s'.ns.bindings.lookup "RailScoreClient" with
           | none => (s', Except.error (LoadError.nameError "RailScoreClient"))
           | some w => ({ s' with ns := s'.ns.bind "RailScore" w }, Except.ok ())) := by
    show runStmts env
      [Stmt.warn, Stmt.importStar, Stmt.importNames ["RailScoreClient", "__version__"],
       Stmt.assign "RailScore" "RailScoreClient"] initState = _
    simp only [runStmts, execStmt, hsdk]
    rw [show ({ ns := initState.ns, warnings := initState.warnings ++ [depWarning] } : ExecState)
        = warnedState from rfl]
    cases bindFrom m LoadError.starAttr (starNames m) warnedState with
    | error e => rfl
    | ok s =>
      simp only []
      cases bindFrom m LoadError.importFrom ["RailScoreClient", "__version__"] s with
      | error e => rfl
      | ok s' =>
        simp only []
        cases s'.ns.bindings.lookup "RailScoreClient" with
        | none => rfl
        | some w => rfl
  rw [h0]
  simp only [hstar]
  simp only [hnames]
  rw [hlk]

/-- A statement other than `warn` does not change the warnings when it
succeeds. -/
theorem exec_nonwarn_warnings {env : Env} {s s' : ExecState} {stmt : Stmt}
    (hx : execStmt env s stmt = Except.ok s') (hne : stmt ≠ Stmt.warn) :
    s'.warnings = s.warnings := by
  cases stmt with
  | warn => exact absurd rfl hne
  | importStar =>
    rw [execStmt] at hx
    cases hsdk : env.sdk with
    | none => simp [hsdk] at hx
    | some m =>
      simp only [hsdk] at hx
      exact (bindFrom_ok_inv hx).1
  | importNames names =>
    rw [execStmt] at hx
    cases hsdk : env.sdk with
    | none => simp [hsdk] at hx
    | some m =>
      simp only [hsdk] at hx
      exact (bindFrom_ok_inv hx).1
  | assign t src =>
    rw [execStmt] at hx
    cases hlk : s.ns.bindings.lookup src with
    | none => simp [hlk] at hx
    | some v =>
      simp only [hlk, Except.ok.injEq] at hx
      rw [← hx]
  | setAll names =>
    rw [execStmt] at hx
    simp only [Except.ok.injEq] at hx
    rw [← hx]

/-- Running statements that never warn leaves the emitted warnings exactly
as they were, whether or not execution succeeds. -/
theorem runStmts_warnings_of_no_warn {env : Env} :
    ∀ {l : List Stmt} {s : ExecState}, (∀ stmt ∈ l, stmt ≠ Stmt.warn) →
      (runStmts env l s).1.warnings = s.warnings := by
  intro l
  induction l with
  | nil => intro s _; rfl
  | cons stmt rest ih =>
    intro s hl
    rw [runStmts]
    cases hx : execStmt env s stmt with
    | error e => rfl
    | ok s2 =>
      simp only []
      have hw : s2.warnings = s.warnings :=
        exec_nonwarn_warnings hx (hl stmt (List.mem_cons_self stmt rest))
      rw [ih (fun t ht => hl t (List.mem_cons_of_mem stmt ht)), hw]

/-- Every run of the body, successful or not, emits the deprecation warning
exactly once: the warn statement runs first and cannot fail, and no later
statement warns. -/
theorem runBody_warnings (env : Env) : (runBody env).1.warnings = [depWarning] := by
  have h0 : runBody env =
      runStmts env
        [Stmt.importStar, Stmt.importNames ["RailScoreClient", "__version__"],
         Stmt.assign "RailScore" "RailScoreClient",
         Stmt.setAll ["RailScore", "RailScoreClient"]] warnedState := rfl
  rw [h0]
  exact runStmts_warnings_of_no_warn (by decide)

set_option maxRecDepth 100000

/-- C1: after a successful load, the legacy name `RailScore` and the new
name `RailScoreClient` are bound to the identical underlying object (the
successor's client type), not a copy — so invoking any method through the
legacy name is indistinguishable from invoking it through the new name. -/
theorem alias_identity {env : Env} {ns : ShimNS}
    (h : (importShim env none).result = Except.ok ns) :
    ∃ v : PyObj, ns.bindings.lookup "RailScore" = some v ∧
      ns.bindings.lookup "RailScoreClient" = some v ∧
      ∀ method : PyObj → PyObj,
        Option.map method (ns.bindings.lookup "RailScore") =
          Option.map method (ns.bindings.lookup "RailScoreClient") := by
  obtain ⟨st, hrb, hns, _⟩ := importShim_none_ok h
  obtain ⟨m, hsdk, hw, hexp, v, hCattr, hR, hC, hV, hVs⟩ := load_char hrb
  subst hns
  exact ⟨v, hR, hC, fun method => by rw [hR, hC]⟩

/-- Witness for C1: the alias identity holds concretely under the sample
successor. -/
theorem alias_identity_witness :
    ∃ v : PyObj, nsSample.bindings.lookup "RailScore" = some v ∧
      nsSample.bindings.lookup "RailScoreClient" = some v ∧
      ∀ method : PyObj → PyObj,
        Option.map method (nsSample.bindings.lookup "RailScore") =
          Option.map method (nsSample.bindings.lookup "RailScoreClient") :=
  @alias_identity envSample nsSample rfl

/-- C2: when the successor module is not installed (or fails to load),
loading the shim fails with a load-time import error, the deprecation
warning having been emitted, and no module — degraded or otherwise — is
left in the cache. -/
theorem missing_successor_fails :
    importShim { sdk := none } none =
      { cache := none, result := Except.error LoadError.moduleNotFound,
        emitted := [depWarning] } := rfl

/-- C3: on every successful load the published export set is exactly the
two names `RailScore` and `RailScoreClient`, set once by the final
statement of the body — after every proper prefix of the body it is still
unpublished. -/
theorem export_set_exact {env : Env} {st : ExecState}
    (h : runBody env = (st, Except.ok ())) :
    st.ns.exports = some ["RailScore", "RailScoreClient"] ∧
    ∀ k, k < shimBody.length → (stateAfter env k).ns.exports = none := by
  obtain ⟨m, s2, s3, v, hsdk, hstar, hnames, hlk, hst⟩ := load_decomp h
  have hinv2 := bindFrom_ok_inv hstar
  have hinv3 := bindFrom_ok_inv hnames
  constructor
  · rw [hst]
  · intro k hk
    have hk5 : k < 5 := by simpa [shimBody] using hk
    simp only [stateAfter]
    interval_cases k
    · rfl
    · rfl
    · rw [runStmts_take2 hsdk hstar]
      exact hinv2.2
    · rw [runStmts_take3 hsdk hstar hnames]
      exact hinv3.2.trans hinv2.2
    · rw [runStmts_take4 hsdk hstar hnames hlk]
      exact hinv3.2.trans hinv2.2

/-- Witness for C3 at the sample environment. -/
theorem export_set_exact_witness :
    stSample.ns.exports = some ["RailScore", "RailScoreClient"] ∧
    ∀ k, k < shimBody.length → (stateAfter envSample k).ns.exports = none :=
  @export_set_exact envSample stSample rfl

/-- C4 counterexample: the emitted notice does not contain the old import
statement example (`from rail_score import RailScore`, as given in the
module docstring), while it does contain the new one — so the claim that
the notice carries both import statement examples verbatim is false. -/
theorem notice_lacks_old_import :
    strContains deprecationMessage "from rail_score import RailScore" = false ∧
    strContains deprecationMessage "from rail_score_sdk import RailScoreClient" = true := by
  exact ⟨by decide, by decide⟩

/-- C4 amended: the deprecation notice contains, verbatim, the uninstall
command, the install command, the new import statement example and a
documentation link; it does not contain the old import statement example,
which appears only in the module docstring, not in the emitted notice. -/
theorem notice_content :
    strContains deprecationMessage "pip uninstall rail-score" = true ∧
    strContains deprecationMessage "pip install rail-score-sdk" = true ∧
    strContains deprecationMessage "from rail_score_sdk import RailScoreClient" = true ∧
    strContains deprecationMessage "https://pypi.org/project/rail-score-sdk/" = true ∧
    strContains deprecationMessage "from rail_score import RailScore" = false := by
  exact ⟨by decide, by decide, by decide, by decide, by decide⟩

/-- C5: initialization performs its side effects in order — (a) the first
statement emits the one deprecation warning with nothing yet bound or
published; (b) after the two import statements the successor's full public
surface (and its client type) is bound while the export list is still
unpublished; (c) the fourth statement binds the legacy name to the
successor's client type, the export list still unpublished; (d) the final
statement publishes the export list with both names. -/
theorem init_order {env : Env} {st : ExecState}
    (h : runBody env = (st, Except.ok ())) :
    ∃ m, env.sdk = some m ∧
      stateAfter env 1 = warnedState ∧
      warnedState.warnings = [depWarning] ∧
      warnedState.ns.bindings = [] ∧
      warnedState.ns.exports = none ∧
      (∀ n ∈ starNames m, (stateAfter env 3).ns.bindings.lookup n = getAttr m n) ∧
      (stateAfter env 3).ns.bindings.lookup "RailScoreClient" = getAttr m "RailScoreClient" ∧
      (stateAfter env 3).ns.exports = none ∧
      (stateAfter env 4).ns.bindings.lookup "RailScore" = getAttr m "RailScoreClient" ∧
      (stateAfter env 4).ns.exports = none ∧
      stateAfter env 5 = st ∧
      st.ns.exports = some ["RailScore", "RailScoreClient"] ∧
      st.warnings = [depWarning] := by
  obtain ⟨m, s2, s3, v, hsdk, hstar, hnames, hlk, hst⟩ := load_decomp h
  have hinv2 := bindFrom_ok_inv hstar
  have hinv3 := bindFrom_ok_inv hnames
  have hC := bindFrom_lookup_of_mem hnames "RailScoreClient" (by simp)
  have hCattr : getAttr m "RailScoreClient" = some v := by rw [← hC, hlk]
  have h3eq : stateAfter env 3 = s3 := by
    simp only [stateAfter]
    rw [runStmts_take3 hsdk hstar hnames]
  have h4eq : stateAfter env 4 = { s3 with ns := s3.ns.bind "RailScore" v } := by
    simp only [stateAfter]
    rw [runStmts_take4 hsdk hstar hnames hlk]
  refine ⟨m, hsdk, rfl, rfl, rfl, rfl, ?_, ?_, ?_, ?_, ?_, ?_, ?_, ?_⟩
  · intro n hn
    rw [h3eq]
    by_cases hmem : n ∈ ["RailScoreClient", "__version__"]
    · exact bindFrom_lookup_of_mem hnames n hmem
    · rw [bindFrom_lookup_of_not_mem hnames n hmem]
      exact bindFrom_lookup_of_mem hstar n hn
  · rw [h3eq]
    exact hC
  · rw [h3eq]
    exact hinv3.2.trans hinv2.2
  · rw [h4eq]
    show List.lookup "RailScore" (("RailScore", v) :: s3.ns.bindings) = getAttr m "RailScoreClient"
    rw [lookup_cons_self "RailScore", hCattr]
  · rw [h4eq]
    exact hinv3.2.trans hinv2.2
  · show (runBody env).1 = st
    rw [h]
  · rw [hst]
  · rw [hst]
    show s3.warnings = [depWarning]
    rw [hinv3.1, hinv2.1]
    rfl

/-- Witness for C5 at the sample environment. -/
theorem init_order_witness :
    ∃ m, envSample.sdk = some m ∧
      stateAfter envSample 1 = warnedState ∧
      warnedState.warnings = [depWarning] ∧
      warnedState.ns.bindings = [] ∧
      warnedState.ns.exports = none ∧
      (∀ n ∈ starNames m, (stateAfter envSample 3).ns.bindings.lookup n = getAttr m n) ∧
      (stateAfter envSample 3).ns.bindings.lookup "RailScoreClient"
        = getAttr m "RailScoreClient" ∧
      (stateAfter envSample 3).ns.exports = none ∧
      (stateAfter envSample 4).ns.bindings.lookup "RailScore" = getAttr m "RailScoreClient" ∧
      (stateAfter envSample 4).ns.exports = none ∧
      stateAfter envSample 5 = stSample ∧
      stSample.ns.exports = some ["RailScore", "RailScoreClient"] ∧
      stSample.warnings = [depWarning] :=
  @init_order envSample stSample rfl

/-- C6: a first load of the shim emits exactly one deprecation-category
notice; a second import served from the same module cache re-executes
nothing and emits no second notice. -/
theorem warn_once_per_cache {env : Env} {st : ExecState}
    (h : runBody env = (st, Except.ok ())) :
    (importShim env none).emitted = [depWarning] ∧
    depWarning.category = "DeprecationWarning" ∧
    ∃ ns, (importShim env none).cache = some ns ∧
      importShim env (importShim env none).cache =
        { cache := some ns, result := Except.ok ns, emitted := [] } := by
  have he : importShim env none =
      { cache := some st.ns, result := Except.ok st.ns, emitted := st.warnings } := by
    unfold importShim
    rw [h]
  obtain ⟨m, hsdk, hw, _⟩ := load_char h
  refine ⟨?_, rfl, st.ns, ?_, ?_⟩
  · rw [he]
    exact hw
  · rw [he]
  · rw [he]
    rfl

/-- Witness for C6 at the sample environment. -/
theorem warn_once_per_cache_witness :
    (importShim envSample none).emitted = [depWarning] ∧
    depWarning.category = "DeprecationWarning" ∧
    ∃ ns, (importShim envSample none).cache = some ns ∧
      importShim envSample (importShim envSample none).cache =
        { cache := some ns, result := Except.ok ns, emitted := [] } :=
  @warn_once_per_cache envSample stSample rfl

/-- C7: the load is atomic with respect to the module cache — a failed load
propagates its error and leaves no cache entry (no partial module), while a
successful load caches a fully initialized module: warning emitted, both
names bound, exports published. -/
theorem load_atomic (env : Env) :
    (∀ e, (importShim env none).result = Except.error e →
      (importShim env none).cache = none) ∧
    ∀ ns, (importShim env none).result = Except.ok ns →
      (importShim env none).cache = some ns ∧
      (importShim env none).emitted = [depWarning] ∧
      (ns.bindings.lookup "RailScore").isSome ∧
      (ns.bindings.lookup "RailScoreClient").isSome ∧
      ns.exports = some ["RailScore", "RailScoreClient"] := by
  constructor
  · intro e he
    exact importShim_none_error he
  · intro ns hok
    obtain ⟨st, hrb, hns, he⟩ := importShim_none_ok hok
    obtain ⟨m, hsdk, hw, hexp, v, hCattr, hR, hC, hV, hVs⟩ := load_char hrb
    subst hns
    refine ⟨by rw [he], by rw [he]; exact hw, ?_, ?_, hexp⟩
    · rw [hR]
      rfl
    · rw [hC]
      rfl

/-- C8: emitting the deprecation notice never raises and never aborts the
load — the warn statement succeeds in every state, and every run of the
body, even one that later fails, has emitted the warning exactly once. -/
theorem warn_never_fails (env : Env) (s : ExecState) :
    execStmt env s Stmt.warn =
      Except.ok { s with warnings := s.warnings ++ [depWarning] } ∧
    (runBody env).1.warnings = [depWarning] :=
  ⟨rfl, runBody_warnings env⟩

/-- C9: after a successful load the shim's namespace binds `__version__` to
the successor's `__version__` attribute, even though `__version__` is not a
member of the published export set. -/
theorem version_bound_not_exported {env : Env} {ns : ShimNS}
    (h : (importShim env none).result = Except.ok ns) :
    ∃ m, env.sdk = some m ∧
      ns.bindings.lookup "__version__" = getAttr m "__version__" ∧
      (ns.bindings.lookup "__version__").isSome ∧
      ∃ ex, ns.exports = some ex ∧ "__version__" ∉ ex := by
  obtain ⟨st, hrb, hns, _⟩ := importShim_none_ok h
  obtain ⟨m, hsdk, hw, hexp, v, hCattr, hR, hC, hV, hVs⟩ := load_char hrb
  subst hns
  refine ⟨m, hsdk, hV, ?_, ["RailScore", "RailScoreClient"], hexp, by decide⟩
  rw [hV]
  exact hVs

/-- Witness for C9 at the sample environment. -/
theorem version_bound_not_exported_witness :
    ∃ m, envSample.sdk = some m ∧
      nsSample.bindings.lookup "__version__" = getAttr m "__version__" ∧
      (nsSample.bindings.lookup "__version__").isSome ∧
      ∃ ex, nsSample.exports = some ex ∧ "__version__" ∉ ex :=
  @version_bound_not_exported envSample nsSample rfl

/-- C10: the load also fails with an import error when the successor module
is installed but lacks a `RailScoreClient` or a `__version__` attribute — a
second failure mode beyond the absent-successor one — and it likewise
leaves no cached module. -/
theorem missing_attr_fails {env : Env} {m : SdkModule} (hm : env.sdk = some m)
    (h : getAttr m "RailScoreClient" = none ∨ getAttr m "__version__" = none) :
    ∃ e, (importShim env none).result = Except.error e ∧
      (importShim env none).cache = none := by
  cases hres : (importShim env none).result with
  | error e => exact ⟨e, rfl, importShim_none_error hres⟩
  | ok ns =>
    exfalso
    obtain ⟨st, hrb, hns, _⟩ := importShim_none_ok hres
    obtain ⟨m2, hsdk2, hw, hexp, v, hCattr, hR, hC, hV, hVs⟩ := load_char hrb
    rw [hm] at hsdk2
    have hm2 : m = m2 := by injection hsdk2
    subst hm2
    cases h with
    | inl hC0 => rw [hC0] at hCattr; exact Option.noConfusion hCattr
    | inr hV0 => rw [hV0] at hVs; simp at hVs

/-- Witness for C10: a successor lacking `__version__` makes the load
fail. -/
theorem missing_attr_fails_witness :
    ∃ e, (importShim envNoVersion none).result = Except.error e ∧
      (importShim envNoVersion none).cache = none :=
  @missing_attr_fails envNoVersion sdkNoVersion rfl (Or.inr rfl)

end RailScoreShim
